import Mathlib

/-!
Shallow embedding of the scheduled-publication subsystem of
`src/social_media_assistant.py` (class `SocialMediaAssistant` and its CLI
`main`).  Python dataclasses become Lean structures; in-place mutation of a
record becomes a function returning the updated record; the side effects the
claims observe (library saves, scheduler registrations) are returned
explicitly.  `datetime` values are modelled by a `DateTime` record of calendar
fields; the external `datetime.isoformat` / `datetime.fromisoformat` codec,
which Python documents as a lossless pair on `datetime` values, is modelled by
carrying the `DateTime` value inside the JSON string constructor `JValue.iso`.
Console prints (the "logging" of the reference) are not part of the modelled
state.
-/

namespace SMA

/-- Mirror of Python `datetime.datetime`: the calendar fields used by the
program (`replace`, comparison, `strftime "%H:%M"`, isoformat round-trip). -/
structure DateTime where
  year : Nat
  month : Nat
  day : Nat
  hour : Nat
  minute : Nat
  second : Nat
  microsecond : Nat
deriving DecidableEq, Repr

/-- Lexicographic strict order on datetimes, as Python compares `datetime`
values field by field from year down to microsecond. -/
def dtLt (a b : DateTime) : Bool :=
  if a.year < b.year then true else if b.year < a.year then false
  else if a.month < b.month then true else if b.month < a.month then false
  else if a.day < b.day then true else if b.day < a.day then false
  else if a.hour < b.hour then true else if b.hour < a.hour then false
  else if a.minute < b.minute then true else if b.minute < a.minute then false
  else if a.second < b.second then true else if b.second < a.second then false
  else decide (a.microsecond < b.microsecond)

/-- Gregorian leap-year rule, as implemented by Python's `datetime`. -/
def isLeap (y : Nat) : Bool :=
  (y % 4 == 0 && y % 100 != 0) || (y % 400 == 0)

/-- Days in a month, as used by `timedelta` day arithmetic. -/
def daysInMonth (y m : Nat) : Nat :=
  if m == 2 then (if isLeap y then 29 else 28)
  else if m == 4 || m == 6 || m == 9 || m == 11 then 30
  else 31

/-- Day increment `d + timedelta(days=1)`, the only timedelta the program uses. -/
def addOneDay (d : DateTime) : DateTime :=
  if d.day < daysInMonth d.year d.month then { d with day := d.day + 1 }
  else if d.month < 12 then { d with day := 1, month := d.month + 1 }
  else { d with day := 1, month := 1, year := d.year + 1 }

/-- Python dataclass `ScheduledPost` (src lines 17-23). -/
structure ScheduledPost where
  platform : String
  content : String
  scheduled_time : DateTime
  posted : Bool := false
deriving DecidableEq, Repr

/-- Python dataclass `Content` (src lines 25-39); `__post_init__` turns a
missing `scheduled_posts` into `[]`, modelled by the default value. -/
structure Content where
  url : String
  title : String
  summary : String
  platform_posts : List (String × String)
  keywords : List String
  language : String
  scheduled_posts : List ScheduledPost := []
  posted : Bool := false
deriving DecidableEq, Repr

/-- Python `SocialMediaAssistant.is_duplicate` (src lines 154-159): some record in
the library has a case-insensitively equal title and an identical language. -/
def is_duplicate (library : List Content) (title language : String) : Bool :=
  library.any fun content =>
    content.title.toLower == title.toLower && content.language == language

/-- The record built and appended by `process_url` (src lines 221-231) once
the external extraction/generation collaborators have returned: summary is the
first 200 characters of the extracted text plus an ellipsis, no scheduled
posts yet, `posted = False`. -/
def process_url_record (url title text : String) (posts : List (String × String))
    (keywords : List String) (language : String) : Content :=
  { url := url, title := title, summary := text.take 200 ++ "...",
    platform_posts := posts, keywords := keywords, language := language,
    scheduled_posts := [], posted := false }

/-- Python `SocialMediaAssistant.schedule_post` (src lines 161-179) acting on one
record.  Returns the updated record together with the scheduler registration
it performs: `schedule.every().day.at(t.strftime("%H:%M"))` is modelled by the
`(hour, minute)` pair, `none` when nothing was registered.  An unknown
platform prints a message and returns with no state change. -/
def schedule_post (content : Content) (platform : String)
    (scheduled_time : DateTime) : Content × Option (Nat × Nat) :=
  match content.platform_posts.lookup platform with
  | none => (content, none)
  | some text =>
    let sp : ScheduledPost :=
      { platform := platform, content := text,
        scheduled_time := scheduled_time, posted := false }
    ({ content with scheduled_posts := content.scheduled_posts ++ [sp] },
      some (scheduled_time.hour, scheduled_time.minute))

/-- The same `schedule_post` invoked on the record at index `i` of the library, as the
CLI does through `assistant.content_library[content_idx]`; records at other
indices are untouched. -/
def schedule_post_lib (library : List Content) (i : Nat) (platform : String)
    (scheduled_time : DateTime) : List Content × Option (Nat × Nat) :=
  match library[i]? with
  | none => (library, none)
  | some c =>
    let r := schedule_post c platform scheduled_time
    (library.set i r.1, r.2)

/-- Where, if anywhere, the body of `publish_post`'s `try` block raises: in
the publish step (the prints, before any flag is set) or in
`self.save_library()` (after the flags are set). -/
inductive FailPoint where
  | noFail
  | atPublish
  | atSave
deriving DecidableEq, Repr

/-- Mutation `scheduled_post.posted = True` on the post at index `i` of the record's
list (the Python callback holds an alias into that list). -/
def markPosted (c : Content) (i : Nat) : Content :=
  match c.scheduled_posts[i]? with
  | none => c
  | some sp =>
    { c with scheduled_posts :=
        c.scheduled_posts.set i { sp with posted := true } }

/-- The aggregate step of `publish_post` (src lines 192-194): set
`content.posted = True` when every scheduled post is posted; never cleared. -/
def aggregate (c : Content) : Content :=
  if c.scheduled_posts.all (fun p => p.posted) then { c with posted := true }
  else c

/-- Python `SocialMediaAssistant.publish_post` (src lines 181-200) on the post at
index `i`.  The second component counts the `save_library()` calls performed.
The whole body sits in one `try/except`: a raise at the publish step leaves
everything untouched; a raise inside `save_library` happens after both flag
updates, so they survive while the save does not. -/
def publish_post (c : Content) (i : Nat) (fp : FailPoint) : Content × Nat :=
  match fp with
  | .atPublish => (c, 0)
  | .atSave => (aggregate (markPosted c i), 0)
  | .noFail => (aggregate (markPosted c i), 1)

/-- Outcome of `os.remove` inside `delete_json_and_clear`. -/
inductive RemoveOutcome where
  | removed
  | fileMissing
  | otherError
deriving DecidableEq, Repr

/-- Python `SocialMediaAssistant.delete_json_and_clear` (src lines 303-313): the
library is cleared when the file is removed and also on `FileNotFoundError`,
but a different exception skips the clearing. -/
def delete_json_and_clear (library : List Content) (r : RemoveOutcome) :
    List Content :=
  match r with
  | .removed => []
  | .fileMissing => []
  | .otherError => library

/-- JSON values as produced/consumed by `json.dump`/`json.load` on the data
this program writes: strings, booleans, arrays, string-keyed objects.  A
timestamp is written as `post.scheduled_time.isoformat()` and read back with
`datetime.fromisoformat`; Python documents that pair as lossless on
`datetime` values, so the ISO string is modelled by the `iso` constructor
carrying the `DateTime` it renders. -/
inductive JValue where
  | str (s : String)
  | bool (b : Bool)
  | arr (items : List JValue)
  | obj (fields : List (String × JValue))
  | iso (d : DateTime)

/-- The object `save_library` (src lines 238-246) builds for one scheduled
post. -/
def encodePost (p : ScheduledPost) : JValue :=
  .obj [("platform", .str p.platform), ("content", .str p.content),
        ("scheduled_time", .iso p.scheduled_time), ("posted", .bool p.posted)]

/-- The object `save_library` (src lines 248-257) builds for one record. -/
def encodeContent (c : Content) : JValue :=
  .obj [("url", .str c.url), ("title", .str c.title),
        ("summary", .str c.summary),
        ("platform_posts", .obj (c.platform_posts.map fun kv => (kv.1, .str kv.2))),
        ("keywords", .arr (c.keywords.map .str)),
        ("language", .str c.language),
        ("scheduled_posts", .arr (c.scheduled_posts.map encodePost)),
        ("posted", .bool c.posted)]

/-- Python `SocialMediaAssistant.save_library` (src lines 234-261): the JSON document
written to the file is the array of encoded records. -/
def save_library (library : List Content) : JValue :=
  .arr (library.map encodeContent)

/-- Field access post[key] where load_library expects a string. -/
def asStr : Option JValue → Option String
  | some (.str s) => some s
  | _ => none

/-- Field access post[key] where load_library expects a boolean. -/
def asBool : Option JValue → Option Bool
  | some (.bool b) => some b
  | _ => none

/-- Reading a timestamp back through `datetime.fromisoformat`. -/
def asTime : Option JValue → Option DateTime
  | some (.iso d) => some d
  | _ => none

/-- Reading `item['platform_posts']` back as a string-to-string mapping. -/
def decodeStrPairs : List (String × JValue) → Option (List (String × String))
  | [] => some []
  | (k, .str v) :: rest =>
    match decodeStrPairs rest with
    | some r => some ((k, v) :: r)
    | none => none
  | _ => none

/-- Reading `item['keywords']` back as a list of strings. -/
def decodeStrList : List JValue → Option (List String)
  | [] => some []
  | .str s :: rest =>
    match decodeStrList rest with
    | some r => some (s :: r)
    | none => none
  | _ => none

/-- One element of the `scheduled_posts` list comprehension of `load_library`
(src lines 271-279). -/
def decodePost (j : JValue) : Option ScheduledPost :=
  match j with
  | .obj kvs =>
    (asStr (kvs.lookup "platform")).bind fun platform =>
    (asStr (kvs.lookup "content")).bind fun content =>
    (asTime (kvs.lookup "scheduled_time")).bind fun scheduled_time =>
    (asBool (kvs.lookup "posted")).bind fun posted =>
    some { platform := platform, content := content,
           scheduled_time := scheduled_time, posted := posted }
  | _ => none

/-- The whole `scheduled_posts` list comprehension. -/
def decodePosts : List JValue → Option (List ScheduledPost)
  | [] => some []
  | j :: rest =>
    (decodePost j).bind fun p =>
    match decodePosts rest with
    | some r => some (p :: r)
    | none => none

/-- Access `item.get("scheduled_posts", [])`: an absent key defaults to the empty
list. -/
def asPosts : Option JValue → Option (List ScheduledPost)
  | none => some []
  | some (.arr xs) => decodePosts xs
  | some _ => none

/-- Field `platform_posts` as read by `load_library`. -/
def asStrPairs : Option JValue → Option (List (String × String))
  | some (.obj kvs) => decodeStrPairs kvs
  | _ => none

/-- Field `keywords` as read by `load_library`. -/
def asStrList : Option JValue → Option (List String)
  | some (.arr xs) => decodeStrList xs
  | _ => none

/-- Access `item.get("language", self.default_language)`. -/
def getLanguage (dflt : String) : Option JValue → Option String
  | none => some dflt
  | some (.str l) => some l
  | some _ => none

/-- One iteration of the `load_library` loop (src lines 270-291): rebuild a
`Content` from its JSON object; a missing or ill-typed mandatory key is the
uncaught `KeyError`/`TypeError` of the reference, surfaced as `none`. -/
def decodeContent (dflt : String) (j : JValue) : Option Content :=
  match j with
  | .obj kvs =>
    (asStr (kvs.lookup "url")).bind fun url =>
    (asStr (kvs.lookup "title")).bind fun title =>
    (asStr (kvs.lookup "summary")).bind fun summary =>
    (asStrPairs (kvs.lookup "platform_posts")).bind fun platform_posts =>
    (asStrList (kvs.lookup "keywords")).bind fun keywords =>
    (getLanguage dflt (kvs.lookup "language")).bind fun language =>
    (asPosts (kvs.lookup "scheduled_posts")).bind fun scheduled_posts =>
    (asBool (kvs.lookup "posted")).bind fun posted =>
    some { url := url, title := title, summary := summary,
           platform_posts := platform_posts, keywords := keywords,
           language := language, scheduled_posts := scheduled_posts,
           posted := posted }
  | _ => none

/-- The full decoding loop over the parsed JSON array. -/
def decodeLibrary (dflt : String) : List JValue → Option (List Content)
  | [] => some []
  | j :: rest =>
    (decodeContent dflt j).bind fun c =>
    match decodeLibrary dflt rest with
    | some r => some (c :: r)
    | none => none

/-- The re-arming pass of `load_library` (src lines 293-298): every loaded
post with `posted == False` and a `scheduled_time` still in the future is
re-registered with the scheduler at its `(hour, minute)` time of day. -/
def rearm (now : DateTime) (library : List Content) : List (Nat × Nat) :=
  library.flatMap fun c =>
    (c.scheduled_posts.filter fun p => !p.posted && dtLt now p.scheduled_time).map
      fun p => (p.scheduled_time.hour, p.scheduled_time.minute)

/-- Python `SocialMediaAssistant.load_library` (src lines 263-301).  `file` is the
parsed content of the backing file, `none` when opening raises
`FileNotFoundError` — the one exception the method catches: it prints a
message and leaves `self.content_library` as it was.  On a successful parse
the collection is replaced and pending posts re-armed; on malformed data the
reference raises out of the method, modelled as `Except.error` (the partial
rebuild the reference leaves behind in that case is not modelled — no claim
depends on it). -/
def load_library (prior : List Content) (dflt : String) (now : DateTime)
    (file : Option JValue) : Except String (List Content × List (Nat × Nat)) :=
  match file with
  | none => .ok (prior, [])
  | some (.arr items) =>
    match decodeLibrary dflt items with
    | some lib => .ok (lib, rearm now lib)
    | none => .error "malformed library data"
  | some _ => .error "malformed library data"

/-- Result of the CLI scheduling branch (`main`, src lines 376-422). -/
inductive MainScheduleResult where
  | rejectedPlatform
  | rejectedTime (msg : String)
  | ok (c : Content) (arm : Option (Nat × Nat))
deriving DecidableEq, Repr

/-- Computed time `datetime.now().replace(hour := h, minute := m)` followed by the
roll-forward to tomorrow when the resulting time is already past
(src lines 409-413); `replace` keeps `now`'s seconds and microseconds. -/
def rollForward (now : DateTime) (h m : Nat) : DateTime :=
  let t := { now with hour := h, minute := m }
  if dtLt t now then addOneDay t else t

/-- The CLI scheduling branch of `main` for a chosen record (src lines
389-419): reject an invalid platform, then validate hour against [0,23] and
minute against [0,59] — the `raise ValueError` is caught by the local
`except` and reported, so `schedule_post` is never reached — and otherwise
hand the rolled-forward time to `schedule_post`. -/
def main_schedule_branch (now : DateTime) (c : Content) (platform : String)
    (hour minute : Int) : MainScheduleResult :=
  if (c.platform_posts.lookup platform).isNone then .rejectedPlatform
  else if hour < 0 || hour > 23 then
    .rejectedTime "Hour must be between 0 and 23"
  else if minute < 0 || minute > 59 then
    .rejectedTime "Minute must be between 0 and 59"
  else
    let t := rollForward now hour.toNat minute.toNat
    let r := schedule_post c platform t
    .ok r.1 r.2

/-! ## Helper lemmas -/

/-- Writing back the element already at position `i` leaves a list unchanged. -/
theorem list_set_self {α : Type} : ∀ (l : List α) (i : Nat) (a : α),
    l[i]? = some a → l.set i a = l := by
  intro l
  induction l with
  | nil => intro i a h; simp at h
  | cons x xs ih =>
    intro i a h
    cases i with
    | zero => simp at h; simp [List.set, h]
    | succ j => simp at h; simp [List.set, ih j a h]

/-- Setting a list at `i` does not change the element read at `j ≠ i`. -/
theorem list_getElem_set_ne {α : Type} : ∀ (l : List α) (i j : Nat) (a : α),
    i ≠ j → (l.set i a)[j]? = l[j]? := by
  intro l
  induction l with
  | nil => intro i j a _; simp
  | cons x xs ih =>
    intro i j a hij
    cases i with
    | zero =>
      cases j with
      | zero => exact absurd rfl hij
      | succ j2 => simp [List.set]
    | succ i2 =>
      cases j with
      | zero => simp [List.set]
      | succ j2 =>
        simp only [List.set, List.getElem?_cons_succ]
        exact ih i2 j2 a (fun h => hij (by rw [h]))

theorem decodeStrPairs_encode : ∀ ps : List (String × String),
    decodeStrPairs (ps.map fun kv => (kv.1, JValue.str kv.2)) = some ps := by
  intro ps
  induction ps with
  | nil => rfl
  | cons kv rest ih =>
    cases kv with
    | mk k v => simp [decodeStrPairs, ih]

theorem decodeStrList_encode : ∀ ks : List String,
    decodeStrList (ks.map JValue.str) = some ks := by
  intro ks
  induction ks with
  | nil => rfl
  | cons k rest ih => simp [decodeStrList, ih]

theorem decodePost_encode (p : ScheduledPost) :
    decodePost (encodePost p) = some p := by
  cases p; rfl

theorem decodePosts_encode : ∀ sp : List ScheduledPost,
    decodePosts (sp.map encodePost) = some sp := by
  intro sp
  induction sp with
  | nil => rfl
  | cons p rest ih => simp [decodePosts, decodePost_encode, ih]

theorem decodeContent_encode (dflt : String) (c : Content) :
    decodeContent dflt (encodeContent c) = some c := by
  cases c with
  | mk url title summary platform_posts keywords language scheduled_posts posted =>
    simp [decodeContent, encodeContent, List.lookup, asStr, asBool, asTime,
      asStrPairs, asStrList, asPosts, getLanguage,
      decodeStrPairs_encode, decodeStrList_encode, decodePosts_encode]

theorem decodeLibrary_encode (dflt : String) : ∀ lib : List Content,
    decodeLibrary dflt (lib.map encodeContent) = some lib := by
  intro lib
  induction lib with
  | nil => rfl
  | cons c rest ih => simp [decodeLibrary, decodeContent_encode, ih]

/-- Setting a list at `i` yields `some a` when read back at `i`, provided `i`
was in bounds. -/
theorem list_getElem_set_self {α : Type} : ∀ (l : List α) (i : Nat) (a b : α),
    l[i]? = some b → (l.set i a)[i]? = some a := by
  intro l
  induction l with
  | nil => intro i a b h; simp at h
  | cons x xs ih =>
    intro i a b h
    cases i with
    | zero => simp [List.set]
    | succ j => simp at h; simp [List.set, ih j a b h]

/-! ## Concrete fixtures used by witnesses and counterexamples -/

/-- Fixture time 2025-05-01 09:00:00. -/
def dt0 : DateTime :=
  { year := 2025, month := 5, day := 1, hour := 9, minute := 0,
    second := 0, microsecond := 0 }

/-- Fixture time 2025-05-01 14:30:00. -/
def dt1 : DateTime :=
  { year := 2025, month := 5, day := 1, hour := 14, minute := 30,
    second := 0, microsecond := 0 }

/-- Fixture scheduled post already dispatched. -/
def postedPostEx : ScheduledPost :=
  { platform := "x", content := "hello", scheduled_time := dt0, posted := true }

/-- Fixture scheduled post not yet dispatched. -/
def pendingPostEx : ScheduledPost :=
  { platform := "x", content := "hello", scheduled_time := dt0, posted := false }

/-- Fixture record whose single scheduled post is already dispatched. -/
def contentPostedEx : Content :=
  { url := "https://example.com/a", title := "A Title", summary := "s...",
    platform_posts := [("x", "hello"), ("linkedin", "hi there")],
    keywords := ["k1", "k2"], language := "en",
    scheduled_posts := [postedPostEx], posted := true }

/-- Fixture record whose single scheduled post is still pending. -/
def contentPendingEx : Content :=
  { url := "https://example.com/a", title := "A Title", summary := "s...",
    platform_posts := [("x", "hello"), ("linkedin", "hi there")],
    keywords := ["k1", "k2"], language := "en",
    scheduled_posts := [pendingPostEx], posted := false }

/-! ## Claim theorems -/

/-- Claim C3: for every library, saving it (`save_library`, which writes the
JSON document `save_library lib`) and loading that document back
(`load_library`) reproduces the in-memory collection field for field —
nested scheduled posts included, each with its platform, content, posted flag
and its timestamp exactly (hence at least to minute precision), whatever the
prior collection was. -/
theorem save_load_roundtrip (prior lib : List Content) (dflt : String)
    (now : DateTime) :
    load_library prior dflt now (some (save_library lib)) =
      Except.ok (lib, rearm now lib) := by
  simp [load_library, save_library, decodeLibrary_encode]

/-- Claim C5 (amended): `load_library` on a missing file is a soft failure —
the `FileNotFoundError` is caught (no exception escapes) and a message is
printed — but the in-memory collection is left exactly as it was, not
cleared: `self.content_library = []` sits inside the `try`, after the `open`
that raised. -/
theorem load_library_missing_file_soft (prior : List Content) (dflt : String)
    (now : DateTime) :
    load_library prior dflt now none = Except.ok (prior, []) := rfl

/-- Claim C5 counterexample: with a non-empty prior collection, `load_library`
on a missing file leaves that collection in place, so it does not "leave the
in-memory collection empty" as the claim states. -/
theorem load_library_missing_file_not_cleared :
    load_library [contentPostedEx] "en" dt0 none =
      Except.ok ([contentPostedEx], []) ∧
    ([contentPostedEx] : List Content) ≠ [] :=
  ⟨rfl, by decide⟩

/-- Claim C7: `is_duplicate` returns true exactly when some existing record
has a case-insensitively equal title and an exactly equal language code; on
the empty library it is always false (and a matching title with a different
language cannot satisfy the right-hand side, hence yields false). -/
theorem is_duplicate_spec (library : List Content) (title language : String) :
    is_duplicate [] title language = false ∧
    (is_duplicate library title language = true ↔
      ∃ c ∈ library, c.title.toLower = title.toLower ∧ c.language = language) := by
  refine ⟨rfl, ?_⟩
  simp [is_duplicate, List.any_eq_true, Bool.and_eq_true]

/-- Claim C10: `delete_json_and_clear` clears the in-memory library both when
the backing file is removed and on `FileNotFoundError`, while any other
exception from the removal skips the clearing and leaves the library
unchanged. -/
theorem delete_json_and_clear_spec (library : List Content) :
    delete_json_and_clear library .removed = [] ∧
    delete_json_and_clear library .fileMissing = [] ∧
    delete_json_and_clear library .otherError = library :=
  ⟨rfl, rfl, rfl⟩

/-- Claim C1 counterexample: `publish_post` has no already-posted guard.  On a
record whose post at index 0 is already posted, a second call still performs a
`save_library()` (save count 1, not 0), so the call is not free of a library
save beyond the first. -/
theorem publish_post_repeat_saves_again :
    (publish_post contentPostedEx 0 FailPoint.noFail).2 ≠ 0 := by decide

/-- Claim C1 (amended): calling `publish_post` again on an already-posted
scheduled post leaves every field of the post and of the record unchanged
except that `record.posted` is recomputed upward (it becomes
`record.posted || all posts posted`, which cannot unset it), but the call
does re-run the publish prints and does trigger another library save — the
reference implements no idempotence guard. -/
theorem publish_post_reposted_fields (c : Content) (i : Nat)
    (sp : ScheduledPost) (hget : c.scheduled_posts[i]? = some sp)
    (hposted : sp.posted = true) :
    publish_post c i FailPoint.noFail =
      ({ c with posted := c.posted || c.scheduled_posts.all fun p => p.posted },
        1) := by
  have hsp : ({ sp with posted := true } : ScheduledPost) = sp := by
    cases sp; simp_all
  have hmark : markPosted c i = c := by
    simp only [markPosted, hget, hsp, list_set_self _ _ _ hget]
  simp only [publish_post, hmark, aggregate]
  by_cases hall : c.scheduled_posts.all (fun p => p.posted) = true
  · simp [hall]
  · simp only [Bool.not_eq_true] at hall
    simp [hall]

/-- Claim C1 witness: the amended statement evaluated on the fixture record
whose single post is already posted. -/
theorem publish_post_reposted_fields_witness :
    publish_post contentPostedEx 0 FailPoint.noFail =
      ({ contentPostedEx with posted :=
          contentPostedEx.posted ||
            contentPostedEx.scheduled_posts.all fun p => p.posted }, 1) :=
  publish_post_reposted_fields contentPostedEx 0 postedPostEx rfl rfl

/-- Fixture for claim C2: a record as `process_url` appends it. -/
def freshContentEx : Content :=
  process_url_record "https://example.com/a" "A Title" "Some article text"
    [("x", "post for x"), ("linkedin", "post for linkedin")] ["k1", "k2"] "en"

/-- Fixture for claim C2: schedule a post on platform x. -/
def c2Step1 : Content := (schedule_post freshContentEx "x" dt0).1

/-- Fixture for claim C2: the scheduler fires and dispatches that post. -/
def c2Step2 : Content := (publish_post c2Step1 0 FailPoint.noFail).1

/-- Fixture for claim C2: a second post is scheduled afterwards. -/
def c2Step3 : Content := (schedule_post c2Step2 "linkedin" dt1).1

/-- Claim C2 counterexample: a record reached through the public operations —
created as by `process_url`, one post scheduled and published
(`record.posted` becomes true), then a new unposted post appended by
`schedule_post` — keeps `record.posted == true` although not every entry of
`scheduled_posts` is posted: `schedule_post` never recomputes the aggregate
flag, so the claimed iff (and the flip back to false) fails. -/
theorem posted_iff_violated_on_reachable_record :
    c2Step3.posted = true ∧
    (c2Step3.scheduled_posts.all fun p => p.posted) = false ∧
    c2Step3.scheduled_posts ≠ [] := by decide

/-- Claim C2 (amended): the code does not maintain the aggregate iff.
`schedule_post` leaves `record.posted` untouched while appending an unposted
entry, so appending a new unposted Scheduled Post to a record whose posted
flag is true leaves `record.posted` true even though its scheduled posts are
no longer all posted; only `publish_post` ever updates the flag, and only
upward. -/
theorem schedule_post_keeps_posted_flag (c : Content) (platform text : String)
    (t : DateTime) (hplat : c.platform_posts.lookup platform = some text)
    (hposted : c.posted = true) :
    (schedule_post c platform t).1.posted = true ∧
    ((schedule_post c platform t).1.scheduled_posts.all fun p => p.posted)
      = false := by
  simp [schedule_post, hplat, hposted]

/-- Claim C2 witness: the amended statement evaluated on the fixture record
that is fully posted, scheduling its linkedin post. -/
theorem schedule_post_keeps_posted_flag_witness :
    (schedule_post contentPostedEx "linkedin" dt1).1.posted = true ∧
    ((schedule_post contentPostedEx "linkedin" dt1).1.scheduled_posts.all
      fun p => p.posted) = false :=
  schedule_post_keeps_posted_flag contentPostedEx "linkedin" "hi there" dt1
    rfl rfl

/-- Claim C4 counterexample: the guarantee does not hold "regardless of where
in the dispatch body the exception occurs".  When the exception is raised in
`save_library()` — inside the same `try` block, after the flag assignments —
the post of the fixture record is already marked posted and the record's
aggregate flag already set, yet no save happened: partial state remains. -/
theorem publish_post_save_failure_leaves_flags :
    ((publish_post contentPendingEx 0 FailPoint.atSave).1.scheduled_posts.all
      fun p => p.posted) = true ∧
    (publish_post contentPendingEx 0 FailPoint.atSave).1.posted = true ∧
    (publish_post contentPendingEx 0 FailPoint.atSave).2 = 0 := by decide

/-- Claim C4 (amended): an exception raised in the publish step itself (the
platform prints, before `scheduled_post.posted = True`) is caught and logged
by the surrounding `except`, and leaves the post's posted flag, the record's
posted flag — indeed the whole record — unchanged, with no save performed;
but an exception later in the `try` body (during the library save) still
leaves the flags set, so the no-partial-state guarantee is limited to the
publish step. -/
theorem publish_post_publish_failure_no_change (c : Content) (i : Nat) :
    publish_post c i FailPoint.atPublish = (c, 0) := rfl

/-- Claim C6: scheduling on a platform that is not a key of the record's
`platform_posts` only prints a message: the returned record is the given one,
nothing is registered with the scheduler, and at the library level the
collection is completely unchanged. -/
theorem schedule_post_unknown_platform (c : Content) (platform : String)
    (t : DateTime) (library : List Content) (i : Nat)
    (hplat : c.platform_posts.lookup platform = none)
    (hi : library[i]? = some c) :
    schedule_post c platform t = (c, none) ∧
    schedule_post_lib library i platform t = (library, none) := by
  have h1 : schedule_post c platform t = (c, none) := by
    simp [schedule_post, hplat]
  refine ⟨h1, ?_⟩
  simp [schedule_post_lib, hi, h1, list_set_self _ _ _ hi]

/-- Claim C6 witness: the statement evaluated on the fixture record and the
platform string tiktok, which is not among its platform posts. -/
theorem schedule_post_unknown_platform_witness :
    schedule_post contentPostedEx "tiktok" dt1 = (contentPostedEx, none) ∧
    schedule_post_lib [contentPostedEx] 0 "tiktok" dt1 =
      ([contentPostedEx], none) :=
  schedule_post_unknown_platform contentPostedEx "tiktok" dt1
    [contentPostedEx] 0 rfl rfl

/-- Claim C8: in the scheduling path the CLI exposes, an hour outside [0,23]
or a minute outside [0,59] — hour 24 and minute 60 in particular — raises the
local `ValueError` that the surrounding `except` reports, so the request is
rejected before `schedule_post` runs: no Scheduled Post is created and
nothing is registered with the scheduler engine; hour 0, minute 0 passes
validation and the post is created and armed. -/
theorem main_schedule_validation (now : DateTime) (c : Content)
    (platform text : String) (hour minute : Int)
    (hplat : c.platform_posts.lookup platform = some text)
    (hbad : hour < 0 ∨ 23 < hour ∨ minute < 0 ∨ 59 < minute) :
    (∃ msg, main_schedule_branch now c platform hour minute =
      .rejectedTime msg) ∧
    main_schedule_branch now c platform 0 0 =
      .ok { c with scheduled_posts := c.scheduled_posts ++
          [{ platform := platform, content := text,
             scheduled_time := rollForward now 0 0, posted := false }] }
        (some ((rollForward now 0 0).hour, (rollForward now 0 0).minute)) := by
  constructor
  · rcases hbad with h | h | h | h
    · exact ⟨"Hour must be between 0 and 23",
        by simp [main_schedule_branch, hplat, h]⟩
    · exact ⟨"Hour must be between 0 and 23",
        by simp [main_schedule_branch, hplat, h]⟩
    · by_cases hh : hour < 0
      · exact ⟨"Hour must be between 0 and 23",
          by simp [main_schedule_branch, hplat, hh]⟩
      · by_cases hh2 : 23 < hour
        · exact ⟨"Hour must be between 0 and 23",
            by simp [main_schedule_branch, hplat, hh2]⟩
        · exact ⟨"Minute must be between 0 and 59",
            by simp [main_schedule_branch, hplat, hh, hh2, h]⟩
    · by_cases hh : hour < 0
      · exact ⟨"Hour must be between 0 and 23",
          by simp [main_schedule_branch, hplat, hh]⟩
      · by_cases hh2 : 23 < hour
        · exact ⟨"Hour must be between 0 and 23",
            by simp [main_schedule_branch, hplat, hh2]⟩
        · exact ⟨"Minute must be between 0 and 59",
            by simp [main_schedule_branch, hplat, hh, hh2, h]⟩
  · simp [main_schedule_branch, hplat, schedule_post]

/-- Claim C8 witness: the statement evaluated with hour 24, minute 0 on the
fixture record — rejected — and the acceptance of hour 0, minute 0. -/
theorem main_schedule_validation_witness :
    (∃ msg, main_schedule_branch dt0 contentPostedEx "x" 24 0 =
      .rejectedTime msg) ∧
    main_schedule_branch dt0 contentPostedEx "x" 0 0 =
      .ok { contentPostedEx with scheduled_posts :=
          contentPostedEx.scheduled_posts ++
          [{ platform := "x", content := "hello",
             scheduled_time := rollForward dt0 0 0, posted := false }] }
        (some ((rollForward dt0 0 0).hour, (rollForward dt0 0 0).minute)) :=
  main_schedule_validation dt0 contentPostedEx "x" "hello" 24 0 rfl
    (Or.inr (Or.inl (by decide)))

/-- Claim C9: on a platform that is a key of the record's `platform_posts`,
`schedule_post` appends exactly one Scheduled Post — with that platform, the
text copied from `platform_posts` at schedule time, the given time and an
unposted flag — at the end of `scheduled_posts`, arms the scheduler at the
time of day of the given time, and changes nothing else: every other field of
the record (url, title, summary, platform posts, keywords, language, the
aggregate posted flag, the existing scheduled posts) is untouched, as is
every other record of the library. -/
theorem schedule_post_frame (library : List Content) (i j : Nat) (c : Content)
    (platform text : String) (t : DateTime)
    (hi : library[i]? = some c)
    (hplat : c.platform_posts.lookup platform = some text)
    (hj : j ≠ i) :
    schedule_post c platform t =
      ({ c with scheduled_posts := c.scheduled_posts ++
          [{ platform := platform, content := text, scheduled_time := t,
             posted := false }] }, some (t.hour, t.minute)) ∧
    (schedule_post_lib library i platform t).1[i]? =
      some { c with scheduled_posts := c.scheduled_posts ++
          [{ platform := platform, content := text, scheduled_time := t,
             posted := false }] } ∧
    (schedule_post_lib library i platform t).1[j]? = library[j]? ∧
    (schedule_post_lib library i platform t).2 = some (t.hour, t.minute) := by
  have h1 : schedule_post c platform t =
      ({ c with scheduled_posts := c.scheduled_posts ++
          [{ platform := platform, content := text, scheduled_time := t,
             posted := false }] }, some (t.hour, t.minute)) := by
    simp [schedule_post, hplat]
  refine ⟨h1, ?_, ?_, ?_⟩
  · simp only [schedule_post_lib, hi, h1]
    exact list_getElem_set_self _ _ _ _ hi
  · simp only [schedule_post_lib, hi]
    exact list_getElem_set_ne _ _ _ _ (fun h => hj h.symm)
  · simp [schedule_post_lib, hi, h1]

/-- Claim C9 witness: the statement evaluated on a two-record library,
scheduling platform x on the first record and observing the second
untouched. -/
theorem schedule_post_frame_witness :
    schedule_post contentPostedEx "x" dt1 =
      ({ contentPostedEx with scheduled_posts :=
          contentPostedEx.scheduled_posts ++
          [{ platform := "x", content := "hello", scheduled_time := dt1,
             posted := false }] }, some (dt1.hour, dt1.minute)) ∧
    (schedule_post_lib [contentPostedEx, freshContentEx] 0 "x" dt1).1[0]? =
      some { contentPostedEx with scheduled_posts :=
          contentPostedEx.scheduled_posts ++
          [{ platform := "x", content := "hello", scheduled_time := dt1,
             posted := false }] } ∧
    (schedule_post_lib [contentPostedEx, freshContentEx] 0 "x" dt1).1[1]? =
      [contentPostedEx, freshContentEx][1]? ∧
    (schedule_post_lib [contentPostedEx, freshContentEx] 0 "x" dt1).2 =
      some (dt1.hour, dt1.minute) :=
  schedule_post_frame [contentPostedEx, freshContentEx] 0 1 contentPostedEx
    "x" "hello" dt1 rfl rfl (by decide)

end SMA
